import Mathlib

/-!
Shallow embedding of the `sway_update` bridge daemon (Rust). Bytes are
modelled as natural numbers below 256; the 32-bit native-byte-order
integers of the i3-ipc wire format are modelled little-endian (the host
is little-endian, and encode/decode are symmetric in the byte order).
Panicking operations (`Option::unwrap`) are modelled by `Option`/an
explicit panic outcome, I/O streams by lists, and the widget sink
(`eww set_var`) by a log of calls.
-/

namespace SwayUpdate

/-- Embeds `const I3_MAGIC_STRING: [u8; 6] = *b"i3-ipc"` from `main.rs`, as bytes. -/
def I3_MAGIC_STRING : List Nat := [105, 51, 45, 105, 112, 99]

/-- Embeds `const HEADER_LENGTH: usize = 14` from `main.rs`. -/
def HEADER_LENGTH : Nat := 14

/-- Embeds `u32::from_ne_bytes` on a byte list (little-endian host order);
the first byte is least significant. -/
def u32FromNeList (bs : List Nat) : Nat :=
  bs.foldr (fun b acc => b + 256 * acc) 0

/-- Embeds `u32::to_ne_bytes` (little-endian host order); as in `(x as u32)`,
the value is reduced modulo 2^32 bytewise. -/
def u32ToNeBytes (n : Nat) : List Nat :=
  [n % 256, n / 256 % 256, n / 65536 % 256, n / 16777216 % 256]

/-- Embeds `MessageType` from `message.rs`: the closed enumeration of
request/reply kinds with their fixed wire tags. -/
inductive MessageType where
  | RunCommands
  | GetWorkspaces
  | Subscribe
  | GetOutputs
  | GetTree
  | GetMarks
  | GetBarConfig
  | GetVersion
  | GetBindingModes
  | GetConfig
  | SendTick
  | Sync
  | GetBindingState
  | GetInputs
  | GetSeats
deriving DecidableEq

/-- The `#[repr(u32)]` discriminant of each `MessageType` variant. -/
def MessageType.tag : MessageType → Nat
  | .RunCommands => 0
  | .GetWorkspaces => 1
  | .Subscribe => 2
  | .GetOutputs => 3
  | .GetTree => 4
  | .GetMarks => 5
  | .GetBarConfig => 6
  | .GetVersion => 7
  | .GetBindingModes => 8
  | .GetConfig => 9
  | .SendTick => 10
  | .Sync => 11
  | .GetBindingState => 12
  | .GetInputs => 100
  | .GetSeats => 101

/-- Embeds `MessageType::from_u32` (derived by `enum_from_primitive!`): a tag
outside the closed set maps to `none`. -/
def MessageType.fromU32 : Nat → Option MessageType
  | 0 => some .RunCommands
  | 1 => some .GetWorkspaces
  | 2 => some .Subscribe
  | 3 => some .GetOutputs
  | 4 => some .GetTree
  | 5 => some .GetMarks
  | 6 => some .GetBarConfig
  | 7 => some .GetVersion
  | 8 => some .GetBindingModes
  | 9 => some .GetConfig
  | 10 => some .SendTick
  | 11 => some .Sync
  | 12 => some .GetBindingState
  | 100 => some .GetInputs
  | 101 => some .GetSeats
  | _ => none

/-- Embeds `MessageType::as_bytes`: `(self as u32).to_ne_bytes()`. -/
def MessageType.asBytes (t : MessageType) : List Nat :=
  u32ToNeBytes t.tag

/-- Embeds `EventType` from `event.rs`: the closed enumeration of event kinds;
all wire tags have bit 31 set. -/
inductive EventType where
  | Workspace
  | Mode
  | Window
  | BarConfigUpdate
  | Binding
  | Shutdown
  | Tick
  | BarStateUpdate
  | Input
deriving DecidableEq

/-- The `#[repr(u32)]` discriminant of each `EventType` variant. -/
def EventType.tag : EventType → Nat
  | .Workspace => 0x80000000
  | .Mode => 0x80000002
  | .Window => 0x80000003
  | .BarConfigUpdate => 0x80000004
  | .Binding => 0x80000005
  | .Shutdown => 0x80000006
  | .Tick => 0x80000007
  | .BarStateUpdate => 0x80000014
  | .Input => 0x80000015

/-- Embeds `EventType::from_u32` (derived by `enum_from_primitive!`). -/
def EventType.fromU32 : Nat → Option EventType
  | 0x80000000 => some .Workspace
  | 0x80000002 => some .Mode
  | 0x80000003 => some .Window
  | 0x80000004 => some .BarConfigUpdate
  | 0x80000005 => some .Binding
  | 0x80000006 => some .Shutdown
  | 0x80000007 => some .Tick
  | 0x80000014 => some .BarStateUpdate
  | 0x80000015 => some .Input
  | _ => none

/-- Embeds `ResponseDeserializeError` from `error.rs`. `Io` abstracts the
wrapped `std::io::Error`; `InvalidMagicString` carries the offending
first 6 header bytes (the Rust code stores their lossy UTF-8 string
rendering). `InvalidEventType` is the variant `event.rs` constructs for
an unknown event tag (its declaration sits in the repository's error
module history; `message.rs` uses `InvalidType` for reply tags). -/
inductive ResponseDeserializeError where
  | Io
  | InvalidMagicString (bytes : List Nat)
  | InvalidType (tag : Nat)
  | InvalidEventType (tag : Nat)
deriving DecidableEq

/-- Embeds `Message` from `message.rs`; the payload's lossy string decode is
modelled by keeping the raw payload bytes. -/
structure MessageR where
  message_type : MessageType
  payload : List Nat
deriving DecidableEq

/-- Embeds `Event` from `event.rs`, at the byte level. -/
structure EventR where
  event_type : EventType
  payload : List Nat
deriving DecidableEq

/-- Embeds `Message::from_read` from `message.rs`: read a 14-byte header, check
the magic, decode length and tag, then read exactly `payload_len` bytes.
A short read is an `Io` error. -/
def MessageR.fromRead (input : List Nat) : Except ResponseDeserializeError MessageR :=
  if input.length < HEADER_LENGTH then .error .Io
  else
    let header := input.take HEADER_LENGTH
    if header.take 6 ≠ I3_MAGIC_STRING then
      .error (.InvalidMagicString (header.take 6))
    else
      let payloadLen := u32FromNeList ((header.drop 6).take 4)
      let tag := u32FromNeList (header.drop 10)
      match MessageType.fromU32 tag with
      | none => .error (.InvalidType tag)
      | some t =>
        let body := input.drop HEADER_LENGTH
        if body.length < payloadLen then .error .Io
        else .ok ⟨t, body.take payloadLen⟩

/-- Embeds `Event::from_read` from `event.rs`: identical framing, but the tag
must be in the event enumeration. -/
def EventR.fromRead (input : List Nat) : Except ResponseDeserializeError EventR :=
  if input.length < HEADER_LENGTH then .error .Io
  else
    let header := input.take HEADER_LENGTH
    if header.take 6 ≠ I3_MAGIC_STRING then
      .error (.InvalidMagicString (header.take 6))
    else
      let payloadLen := u32FromNeList ((header.drop 6).take 4)
      let tag := u32FromNeList (header.drop 10)
      match EventType.fromU32 tag with
      | none => .error (.InvalidEventType tag)
      | some t =>
        let body := input.drop HEADER_LENGTH
        if body.length < payloadLen then .error .Io
        else .ok ⟨t, body.take payloadLen⟩

/-- The outbound frame built by `Daemon::request` in `main.rs`:
`[magic][payload length][tag][payload bytes]`. -/
def buildRequest (t : MessageType) (payload : List Nat) : List Nat :=
  I3_MAGIC_STRING ++ u32ToNeBytes payload.length ++ t.asBytes ++ payload

/-- JSON values, the intermediate form of `serde_json`. Payload text is
parsed to this form by `serde_json`'s grammar (external library);
the daemon's own deserialization shapes are modelled below on it. -/
inductive Json where
  | null
  | bool (b : Bool)
  | num (n : Int)
  | str (s : String)
  | arr (xs : List Json)
  | obj (fields : List (String × Json))

/-- Field lookup in a JSON object, `none` for absent fields or
non-object values. -/
def Json.getField (j : Json) (name : String) : Option Json :=
  match j with
  | .obj fields => (fields.find? (fun p => p.1 == name)).map (·.2)
  | _ => none

/-- A required `bool` field under serde's derive semantics. -/
def Json.boolField (j : Json) (name : String) : Option Bool :=
  match j.getField name with
  | some (.bool b) => some b
  | _ => none

/-- A required `usize` field: a non-negative JSON integer. -/
def Json.natField (j : Json) (name : String) : Option Nat :=
  match j.getField name with
  | some (.num n) => if n < 0 then none else some n.toNat
  | _ => none

/-- A required `String` field. -/
def Json.strField (j : Json) (name : String) : Option String :=
  match j.getField name with
  | some (.str s) => some s
  | _ => none

/-- An `Option<bool>` field: absent or `null` is `None`, a boolean is
`Some`, anything else a deserialization error. -/
def Json.optBoolField (j : Json) (name : String) : Option (Option Bool) :=
  match j.getField name with
  | none => some none
  | some .null => some none
  | some (.bool b) => some (some b)
  | some _ => none

/-- An `Option<String>` field. -/
def Json.optStrField (j : Json) (name : String) : Option (Option String) :=
  match j.getField name with
  | none => some none
  | some .null => some none
  | some (.str s) => some (some s)
  | some _ => none

/-- An `Option<usize>` field. -/
def Json.optNatField (j : Json) (name : String) : Option (Option Nat) :=
  match j.getField name with
  | none => some none
  | some .null => some none
  | some (.num n) => if n < 0 then none else some (some n.toNat)
  | some _ => none

/-- Embeds `Workspace` from `objects.rs`; `visible` is optional because it may
be absent in workspace change events. -/
structure Workspace where
  id : Nat
  num : Nat
  name : String
  output : String
  focused : Bool
  urgent : Bool
  visible : Option Bool
deriving DecidableEq

/-- serde's derived `Deserialize` for `Workspace`: every
non-`Option` field is required. -/
def Workspace.fromJson (j : Json) : Option Workspace := do
  let id ← j.natField "id"
  let num ← j.natField "num"
  let name ← j.strField "name"
  let output ← j.strField "output"
  let focused ← j.boolField "focused"
  let urgent ← j.boolField "urgent"
  let visible ← j.optBoolField "visible"
  pure ⟨id, num, name, output, focused, urgent, visible⟩

/-- Embeds `Vec<Workspace>` deserialization: a JSON array of workspaces. -/
def workspacesFromJson (j : Json) : Option (List Workspace) :=
  match j with
  | .arr xs => xs.mapM Workspace.fromJson
  | _ => none

/-- Embeds `WorkspaceInfo` from `objects.rs`: the derived output entity sent to
the widget sink. -/
structure WorkspaceInfo where
  name : String
  num : Nat
  focused : Bool
  urgent : Bool
  visible : Bool
  active : Bool
deriving DecidableEq

/-- Embeds `WorkspaceInfo::new`: name and number as given, every other field
from `Default` (all booleans `false`). -/
def WorkspaceInfo.new (name : String) (num : Nat) : WorkspaceInfo :=
  ⟨name, num, false, false, false, false⟩

/-- Embeds `Window` from `objects.rs`. -/
structure Window where
  id : Nat
  name : Option String
  focused : Bool
  urgent : Bool
  pid : Option Nat
  app_id : Option String
deriving DecidableEq

/-- serde's derived `Deserialize` for `Window`. -/
def Window.fromJson (j : Json) : Option Window := do
  let id ← j.natField "id"
  let name ← j.optStrField "name"
  let focused ← j.boolField "focused"
  let urgent ← j.boolField "urgent"
  let pid ← j.optNatField "pid"
  let app_id ← j.optStrField "app_id"
  pure ⟨id, name, focused, urgent, pid, app_id⟩

/-- Embeds `WindowEvent` from `event.rs`: `change` and a `container` window. -/
structure WindowEvent where
  change : String
  container : Window
deriving DecidableEq

/-- serde's derived `Deserialize` for `WindowEvent`: both fields
required. -/
def WindowEvent.fromJson (j : Json) : Option WindowEvent := do
  let change ← j.strField "change"
  let container ← Window.fromJson (← j.getField "container")
  pure ⟨change, container⟩

/-- Embeds `ModeEvent` from `event.rs`. -/
structure ModeEvent where
  change : String
  pango_markup : Bool
deriving DecidableEq

/-- serde's derived `Deserialize` for `ModeEvent`. -/
def ModeEvent.fromJson (j : Json) : Option ModeEvent := do
  let change ← j.strField "change"
  let pm ← j.boolField "pango_markup"
  pure ⟨change, pm⟩

/-- The local `SubscribeResponse` struct inside
`Daemon::handle_response`. -/
structure SubscribeResponse where
  success : Bool
deriving DecidableEq

/-- serde's derived `Deserialize` for `SubscribeResponse`. -/
def SubscribeResponse.fromJson (j : Json) : Option SubscribeResponse := do
  let success ← j.boolField "success"
  pure ⟨success⟩

/-- Embeds `WorkspaceEventChange` from `event.rs`. -/
inductive WorkspaceEventChange where
  | Init
  | Empty
  | Focus
  | Move
  | Rename
  | Urgent
  | Reload
deriving DecidableEq

/-- Embeds `WorkspaceEventParseError`: the error of
`WorkspaceEventChange::from_str`, carrying the offending token (its
declaration sits in the repository's error module; `event.rs`
constructs exactly `Invalid(s.to_string())`). -/
inductive WorkspaceEventParseError where
  | Invalid (s : String)
deriving DecidableEq

/-- Embeds `WorkspaceEventChange::from_str` from `event.rs`: the Rust `match`
on string literals, written as its sequential equality tests. -/
def WorkspaceEventChange.fromStr (s : String) :
    Except WorkspaceEventParseError WorkspaceEventChange :=
  if s = "init" then .ok .Init
  else if s = "empty" then .ok .Empty
  else if s = "focus" then .ok .Focus
  else if s = "move" then .ok .Move
  else if s = "rename" then .ok .Rename
  else if s = "urgent" then .ok .Urgent
  else if s = "reload" then .ok .Reload
  else .error (.Invalid s)

/-- A value passed to `Eww::set_var`. The `ws_info` update sends the
`serde_json` rendering of the `WorkspaceInfo` list; serialization is
total and injective, so the list itself is kept. -/
inductive SinkValue where
  | str (s : String)
  | bool (b : Bool)
  | workspaces (ws : List WorkspaceInfo)
deriving DecidableEq

/-- One `eww update var=value` invocation. -/
structure SinkCall where
  var : String
  value : SinkValue
deriving DecidableEq

/-- Embeds `RequestError` from `error.rs`; wrapped foreign error values
(`std::io::Error`, `serde_json::Error`, the boxed eww error) are
abstracted away, the `Read` variant keeps its decode error. -/
inductive RequestError where
  | Io
  | Read (e : ResponseDeserializeError)
  | Eww
  | Deserialize
  | Serialize
  | UnsuccessfulSubscription
deriving DecidableEq

/-- Outcome of a fallible computation that may also panic
(`Option::unwrap` on `None`). -/
inductive RunResult (ε : Type) (α : Type) where
  | ok (a : α)
  | err (e : ε)
  | panic
deriving DecidableEq

/-- The iterator chain of the `GetWorkspaces` arm of
`Daemon::handle_response`: each workspace is turned into a
`WorkspaceInfo` with `active = true` and `visible` unwrapped; a missing
`visible` is the `unwrap` panic, modelled as `none`. -/
def collectInfos : List Workspace → Option (List WorkspaceInfo)
  | [] => some []
  | w :: ws =>
    match w.visible with
    | none => none
    | some v =>
      (collectInfos ws).map (⟨w.name, w.num, w.focused, w.urgent, v, true⟩ :: ·)

/-- Lookup in the number-keyed `HashMap` built by
`collect::<HashMap<_, _>>()`: insertion overwrites, so the value is the
one of the latest pair with the given key. -/
def lookupLast (ps : List (Nat × WorkspaceInfo)) (k : Nat) : Option WorkspaceInfo :=
  (ps.reverse.find? (fun p => p.1 == k)).map (·.2)

/-- The `GetWorkspaces` arm of `Daemon::handle_response` after
deserialization: build the number-keyed map, then for numbers 1..=8
emit the mapped entry or a default-constructed placeholder.
`none` is the `unwrap` panic. -/
def handleGetWorkspaces (ws : List Workspace) : Option (List WorkspaceInfo) :=
  (collectInfos ws).map fun infos =>
    let pairs := infos.map fun i => (i.num, i)
    (List.range 8).map fun i =>
      (lookupLast pairs (i + 1)).getD (WorkspaceInfo.new (toString (i + 1)) (i + 1))

/-- Embeds `Daemon::handle_response` from `main.rs`, keyed by the reply's
type tag: `GetWorkspaces` forwards the 8 entries to the sink under
`ws_info`, `Subscribe` checks the `success` flag, everything else is
only traced. The result carries the `set_var` calls made. -/
def handleResponse (payload_type : MessageType) (payload : Json) :
    RunResult RequestError (List SinkCall) :=
  match payload_type with
  | .GetWorkspaces =>
    match workspacesFromJson payload with
    | none => .err .Deserialize
    | some ws =>
      match handleGetWorkspaces ws with
      | none => .panic
      | some infos => .ok [⟨"ws_info", .workspaces infos⟩]
  | .Subscribe =>
    match SubscribeResponse.fromJson payload with
    | none => .err .Deserialize
    | some r => if r.success then .ok [] else .err .UnsuccessfulSubscription
  | _ => .ok []

/-- A reply frame after payload JSON parsing, as consumed by
`Daemon::request`. -/
structure MessageJ where
  message_type : MessageType
  payload : Json

/-- A pushed event frame after payload JSON parsing, as consumed by the
dispatch loop. -/
structure EventJ where
  event_type : EventType
  payload : Json

/-- Embeds `EventError` from `error.rs`, foreign payloads abstracted. -/
inductive EventError where
  | Read (e : ResponseDeserializeError)
  | Request (e : RequestError)
  | DeserializePayload
  | Eww
deriving DecidableEq

/-- Embeds `EventLoopError` from `error.rs`. -/
inductive EventLoopError where
  | Subscription (e : RequestError)
  | Read (e : ResponseDeserializeError)
  | Event (e : EventError)
deriving DecidableEq

/-- The daemon's observable session state: the replies the socket will
deliver to `read_response` calls (in order), and the log of sink calls
made so far. -/
structure LoopState where
  responses : List (Except ResponseDeserializeError MessageJ)
  sink : List SinkCall

/-- Embeds `Daemon::request` from `main.rs` after the socket write: read one
reply frame (a closed stream is an I/O read error) and dispatch it with
`handle_response`; its sink calls are appended to the log. -/
def requestStep (st : LoopState) : RunResult RequestError Unit × LoopState :=
  match st.responses with
  | [] => (.err (.Read .Io), ⟨[], st.sink⟩)
  | .error e :: rest => (.err (.Read e), ⟨rest, st.sink⟩)
  | .ok msg :: rest =>
    match handleResponse msg.message_type msg.payload with
    | .ok calls => (.ok (), ⟨rest, st.sink ++ calls⟩)
    | .err e => (.err e, ⟨rest, st.sink⟩)
    | .panic => (.panic, ⟨rest, st.sink⟩)

/-- Embeds `Daemon::handle_event` from `main.rs`: route one decoded event by
kind. `ok b` carries the shutdown flag; deserialization failures are
`DeserializePayload` errors; `Workspace` issues a `GetWorkspaces`
request on the session. The sink (`eww`) is modelled as succeeding. -/
def handleEvent (event_type : EventType) (payload : Json) (st : LoopState) :
    RunResult EventError Bool × LoopState :=
  match event_type with
  | .Window =>
    match WindowEvent.fromJson payload with
    | none => (.err .DeserializePayload, st)
    | some we =>
      match we.container.name with
      | some n => (.ok false, ⟨st.responses, st.sink ++ [⟨"active_window", .str n⟩]⟩)
      | none => (.ok false, st)
  | .Workspace =>
    match requestStep st with
    | (.ok _, st') => (.ok false, st')
    | (.err e, st') => (.err (.Request e), st')
    | (.panic, st') => (.panic, st')
  | .Shutdown => (.ok true, st)
  | .Mode =>
    match ModeEvent.fromJson payload with
    | none => (.err .DeserializePayload, st)
    | some m =>
      if m.change = "default" then
        (.ok false, ⟨st.responses, st.sink ++ [⟨"binding_active", .bool false⟩]⟩)
      else
        (.ok false,
          ⟨st.responses,
            st.sink ++ [⟨"binding_mode", .str m.change⟩, ⟨"binding_active", .bool true⟩]⟩)
  | _ => (.ok false, st)

/-- Result of the dispatch loop, carrying the final session state. -/
inductive LoopResult where
  | ok (st : LoopState)
  | err (e : EventLoopError) (st : LoopState)
  | panic
deriving Nonempty

/-- The `loop` body of `Daemon::subscribe_event_loop`: read the next
event (a closed stream is an I/O read error, modelled by the empty
list), propagate decode failures as fatal `Read` errors, dispatch the
event, log-and-continue on handler errors, and stop cleanly when the
handler reports shutdown. -/
def loopGo (evts : List (Except ResponseDeserializeError EventJ)) (st : LoopState) :
    LoopResult :=
  match evts with
  | [] => .err (.Read .Io) st
  | .error e :: _ => .err (.Read e) st
  | .ok ev :: rest =>
    match handleEvent ev.event_type ev.payload st with
    | (.ok true, st') => .ok st'
    | (.ok false, st') => loopGo rest st'
    | (.err _, st') => loopGo rest st'
    | (.panic, _) => .panic

/-- Embeds `Daemon::subscribe_event_loop` from `main.rs`: one `Subscribe`
request (failure aborts with a `Subscription` error before the loop),
then the dispatch loop. -/
def subscribeEventLoop (evts : List (Except ResponseDeserializeError EventJ))
    (st : LoopState) : LoopResult :=
  match requestStep st with
  | (.ok _, st') => loopGo evts st'
  | (.err e, st') => .err (.Subscription e) st'
  | (.panic, _) => .panic

/-- The total form of the workspace-to-info conversion in the
`GetWorkspaces` arm, defined when `visible` is present (the `unwrap`
of the code cannot fault there). -/
def Workspace.asInfo (w : Workspace) : WorkspaceInfo :=
  ⟨w.name, w.num, w.focused, w.urgent, w.visible.getD false, true⟩

/-! ### Helper lemmas -/

theorem collectInfos_of_all_isSome (ws : List Workspace)
    (h : ∀ w ∈ ws, w.visible.isSome) :
    collectInfos ws = some (ws.map Workspace.asInfo) := by
  induction ws with
  | nil => rfl
  | cons w ws ih =>
    have hw := h w (by simp)
    rcases hv : w.visible with _ | v
    · rw [hv] at hw
      simp at hw
    · simp only [collectInfos, hv, ih (fun x hx => h x (by simp [hx])),
        Option.map_some', List.map_cons]
      simp [Workspace.asInfo, hv]

theorem collectInfos_eq_none_iff (ws : List Workspace) :
    collectInfos ws = none ↔ ∃ w ∈ ws, w.visible = none := by
  induction ws with
  | nil => simp [collectInfos]
  | cons w ws ih =>
    rcases hv : w.visible with _ | v
    · simp [collectInfos, hv]
    · simp [collectInfos, hv, ih, Option.map_eq_none']

theorem lookupLast_map_num (infos : List WorkspaceInfo) (k : Nat) :
    lookupLast (infos.map fun i => (i.num, i)) k =
      infos.reverse.find? (fun i => i.num == k) := by
  rw [lookupLast, ← List.map_reverse, List.find?_map]
  have : ((infos.reverse.find? ((fun p => p.1 == k) ∘ fun i => (i.num, i))).map
      fun i => (i.num, i)).map (·.2) =
      (infos.reverse.find? ((fun p => p.1 == k) ∘ fun i => (i.num, i))).map
        (fun i => i) := by
    rw [Option.map_map]
    congr 1
  rw [this, Option.map_id']
  rfl

theorem asInfo_reverse_find (ws : List Workspace) (k : Nat) :
    (ws.map Workspace.asInfo).reverse.find? (fun i => i.num == k) =
      (ws.reverse.find? (fun w => w.num == k)).map Workspace.asInfo := by
  rw [← List.map_reverse, List.find?_map]
  rfl

theorem find?_filter_of_imp {α : Type} (l : List α) (p q : α → Bool)
    (h : ∀ x, q x = true → p x = true) :
    (l.filter p).find? q = l.find? q := by
  induction l with
  | nil => rfl
  | cons x l ih =>
    by_cases hq : q x = true
    · rw [List.filter_cons, if_pos (h x hq), List.find?_cons_of_pos _ hq,
        List.find?_cons_of_pos _ hq]
    · rw [List.find?_cons_of_neg _ hq, List.filter_cons]
      by_cases hp : p x = true
      · rw [if_pos hp, List.find?_cons_of_neg _ hq, ih]
      · rw [if_neg hp, ih]

/-- The `GetWorkspaces` arm succeeds when every `visible` is present,
emits 8 entries, and the entry at index `i` is the mapped info of the
latest reported workspace numbered `i + 1`, or the placeholder. -/
theorem handleGetWorkspaces_entry (ws : List Workspace)
    (h : ∀ w ∈ ws, w.visible.isSome) :
    ∃ entries, handleGetWorkspaces ws = some entries ∧
      entries.length = 8 ∧
      ∀ i, i < 8 →
        entries[i]? = some
          ((((ws.reverse.find? (fun w => w.num == i + 1)).map
              Workspace.asInfo)).getD
            (WorkspaceInfo.new (toString (i + 1)) (i + 1))) := by
  refine ⟨_, by rw [handleGetWorkspaces, collectInfos_of_all_isSome ws h,
    Option.map_some'], by simp, fun i hi => ?_⟩
  rw [List.getElem?_map, List.getElem?_range hi, Option.map_some',
    lookupLast_map_num, asInfo_reverse_find]

theorem u32ToNeBytes_length (n : Nat) : (u32ToNeBytes n).length = 4 := rfl

theorem u32_roundtrip (n : Nat) :
    u32FromNeList (u32ToNeBytes n) = n % 4294967296 := by
  simp only [u32ToNeBytes, u32FromNeList, List.foldr]
  omega

theorem MessageType.fromU32_tag (t : MessageType) :
    MessageType.fromU32 t.tag = some t := by
  cases t <;> rfl

theorem MessageType.tag_lt (t : MessageType) : t.tag < 4294967296 := by
  cases t <;> decide

/-! ### Claims -/

/-- C3: within the dispatch loop, a decode failure returned by
`read_event` terminates the loop immediately with that error propagated
as a fatal `Read` error; the result does not depend on the rest of the
stream and the session state is unchanged, so no further event is read
or dispatched. -/
theorem loopGo_read_error_fatal (e : ResponseDeserializeError)
    (rest : List (Except ResponseDeserializeError EventJ)) (st : LoopState) :
    loopGo (.error e :: rest) st = .err (.Read e) st := rfl

/-- C8: `WorkspaceEventChange::from_str` accepts exactly the 7 lowercase
tokens, mapping each to its variant, and any other string — including
case variants — fails with a parse error carrying the offending
token. -/
theorem workspaceEventChange_fromStr_spec (s : String) :
    (∀ c, WorkspaceEventChange.fromStr s = .ok c ↔
      (s = "init" ∧ c = .Init) ∨ (s = "empty" ∧ c = .Empty) ∨
      (s = "focus" ∧ c = .Focus) ∨ (s = "move" ∧ c = .Move) ∨
      (s = "rename" ∧ c = .Rename) ∨ (s = "urgent" ∧ c = .Urgent) ∨
      (s = "reload" ∧ c = .Reload)) ∧
    (s ∉ (["init", "empty", "focus", "move", "rename", "urgent", "reload"] : List String) →
      WorkspaceEventChange.fromStr s = .error (.Invalid s)) := by
  unfold WorkspaceEventChange.fromStr
  constructor
  · intro c
    split_ifs with h1 h2 h3 h4 h5 h6 h7 <;> simp_all <;> exact eq_comm
  · intro hn
    simp only [List.mem_cons, List.mem_singleton, not_or] at hn
    split_ifs <;> simp_all

/-- Witness for C8: the capitalized token `"Focus"` is rejected with a
parse error carrying it, and `"focus"` maps to `Focus`. -/
theorem workspaceEventChange_fromStr_spec_witness :
    WorkspaceEventChange.fromStr "Focus" = .error (.Invalid "Focus") ∧
    WorkspaceEventChange.fromStr "focus" = .ok .Focus :=
  ⟨(workspaceEventChange_fromStr_spec "Focus").2 (by decide),
   ((workspaceEventChange_fromStr_spec "focus").1 .Focus).mpr (by simp)⟩

/-- C2: for every 14-byte header, both frame decoders fail with an
invalid-magic error carrying the first 6 bytes whenever those differ
from `b"i3-ipc"`, regardless of the remaining 8 bytes and of the rest
of the stream; and when the magic matches but the 4-byte tag is outside
the closed enumeration for the caller's context, they fail with an
invalid-tag error carrying the raw 32-bit value (both decoders are
total functions: no panic). -/
theorem fromRead_header_validation (header rest : List Nat)
    (hlen : header.length = 14) :
    (header.take 6 ≠ I3_MAGIC_STRING →
      MessageR.fromRead (header ++ rest) =
        .error (.InvalidMagicString (header.take 6)) ∧
      EventR.fromRead (header ++ rest) =
        .error (.InvalidMagicString (header.take 6))) ∧
    (header.take 6 = I3_MAGIC_STRING →
      (MessageType.fromU32 (u32FromNeList (header.drop 10)) = none →
        MessageR.fromRead (header ++ rest) =
          .error (.InvalidType (u32FromNeList (header.drop 10)))) ∧
      (EventType.fromU32 (u32FromNeList (header.drop 10)) = none →
        EventR.fromRead (header ++ rest) =
          .error (.InvalidEventType (u32FromNeList (header.drop 10))))) := by
  have hnot : ¬ (header ++ rest).length < HEADER_LENGTH := by
    simp [HEADER_LENGTH, hlen]
  have htake : (header ++ rest).take HEADER_LENGTH = header := List.take_left' hlen
  refine ⟨fun hmag => ⟨?_, ?_⟩, fun hmag => ⟨fun htag => ?_, fun htag => ?_⟩⟩
  · simp only [MessageR.fromRead, htake, if_neg hnot, if_pos hmag]
  · simp only [EventR.fromRead, htake, if_neg hnot, if_pos hmag]
  · simp only [MessageR.fromRead, htake, if_neg hnot, hmag, htag, ne_eq,
      not_true_eq_false, if_false]
  · simp only [EventR.fromRead, htake, if_neg hnot, hmag, htag, ne_eq,
      not_true_eq_false, if_false]

/-- Witness for C2: a header starting `b"xx-ipc"` is rejected as
invalid magic, and a correct-magic header with tag 99 (no reply kind)
or tag 1 (no event kind) is rejected as an invalid tag. -/
theorem fromRead_header_validation_witness :
    MessageR.fromRead ([120, 120, 45, 105, 112, 99, 0, 0, 0, 0, 1, 0, 0, 0] ++ []) =
      .error (.InvalidMagicString [120, 120, 45, 105, 112, 99]) ∧
    MessageR.fromRead ([105, 51, 45, 105, 112, 99, 0, 0, 0, 0, 99, 0, 0, 0] ++ []) =
      .error (.InvalidType 99) ∧
    EventR.fromRead ([105, 51, 45, 105, 112, 99, 0, 0, 0, 0, 1, 0, 0, 0] ++ []) =
      .error (.InvalidEventType 1) :=
  ⟨((fromRead_header_validation
      [120, 120, 45, 105, 112, 99, 0, 0, 0, 0, 1, 0, 0, 0] [] (by decide)).1
      (by decide)).1,
   ((fromRead_header_validation
      [105, 51, 45, 105, 112, 99, 0, 0, 0, 0, 99, 0, 0, 0] [] (by decide)).2
      (by decide)).1 (by decide),
   ((fromRead_header_validation
      [105, 51, 45, 105, 112, 99, 0, 0, 0, 0, 1, 0, 0, 0] [] (by decide)).2
      (by decide)).2 (by decide)⟩

/-- C7: the 14-byte header built by `Daemon::request` (magic, then the
payload length, then the kind's tag, both in native byte order) decodes
back through `Message::from_read` to exactly the same kind and the same
payload (hence the same payload length): header encoding and decoding
round-trip exactly. -/
theorem request_header_roundtrip (t : MessageType) (payload : List Nat)
    (hpl : payload.length < 4294967296) :
    MessageR.fromRead (buildRequest t payload) = .ok ⟨t, payload⟩ := by
  have e1 : buildRequest t payload =
      ((I3_MAGIC_STRING ++ u32ToNeBytes payload.length) ++ u32ToNeBytes t.tag)
        ++ payload := rfl
  have h14 : ((I3_MAGIC_STRING ++ u32ToNeBytes payload.length)
      ++ u32ToNeBytes t.tag).length = HEADER_LENGTH := rfl
  have hnot : ¬ (buildRequest t payload).length < HEADER_LENGTH := by
    rw [e1, List.length_append, h14]
    simp
  have htake : (buildRequest t payload).take HEADER_LENGTH =
      (I3_MAGIC_STRING ++ u32ToNeBytes payload.length) ++ u32ToNeBytes t.tag := by
    rw [e1]
    exact List.take_left' h14
  have hdrop : (buildRequest t payload).drop HEADER_LENGTH = payload := by
    rw [e1]
    exact List.drop_left' h14
  have hmag : (((I3_MAGIC_STRING ++ u32ToNeBytes payload.length)
      ++ u32ToNeBytes t.tag)).take 6 = I3_MAGIC_STRING := by
    rw [List.append_assoc]
    exact List.take_left' rfl
  have hlenB : ((((I3_MAGIC_STRING ++ u32ToNeBytes payload.length)
      ++ u32ToNeBytes t.tag)).drop 6).take 4 = u32ToNeBytes payload.length := by
    rw [List.append_assoc]
    have hd6 : (I3_MAGIC_STRING
        ++ (u32ToNeBytes payload.length ++ u32ToNeBytes t.tag)).drop 6 =
        u32ToNeBytes payload.length ++ u32ToNeBytes t.tag := List.drop_left' rfl
    rw [hd6]
    exact List.take_left' rfl
  have htagB : (((I3_MAGIC_STRING ++ u32ToNeBytes payload.length)
      ++ u32ToNeBytes t.tag)).drop 10 = u32ToNeBytes t.tag :=
    List.drop_left' rfl
  simp only [MessageR.fromRead, if_neg hnot, htake, hmag, hlenB, htagB,
    u32_roundtrip, Nat.mod_eq_of_lt hpl, Nat.mod_eq_of_lt (MessageType.tag_lt t),
    MessageType.fromU32_tag, hdrop, ne_eq, not_true_eq_false, if_false,
    lt_irrefl, List.take_length]

/-- Witness for C7: the `Subscribe` request frame for a 2-byte payload
decodes back to `Subscribe` with that payload. -/
theorem request_header_roundtrip_witness :
    MessageR.fromRead (buildRequest .Subscribe [91, 93]) =
      .ok ⟨.Subscribe, [91, 93]⟩ :=
  request_header_roundtrip .Subscribe [91, 93] (by decide)

/-- C4: a `Window` event whose payload does not deserialize as a
`WindowEvent` yields a `DeserializePayload` handler error that is
caught at the loop boundary: the loop continues exactly as it would on
the rest of the stream, so the next event is still read and
dispatched. -/
theorem loopGo_window_deserialize_error (j : Json)
    (rest : List (Except ResponseDeserializeError EventJ)) (st : LoopState)
    (h : WindowEvent.fromJson j = none) :
    handleEvent .Window j st = (.err .DeserializePayload, st) ∧
    loopGo (.ok ⟨.Window, j⟩ :: rest) st = loopGo rest st := by
  constructor
  · simp only [handleEvent, h]
  · simp only [loopGo, handleEvent, h]

/-- Witness for C4: a window payload missing the required `container`
field fails to deserialize, and the loop goes on to the next event. -/
theorem loopGo_window_deserialize_error_witness :
    WindowEvent.fromJson (Json.obj [("change", Json.str "focus")]) = none ∧
    loopGo [Except.ok ⟨EventType.Window, Json.obj [("change", Json.str "focus")]⟩]
        ⟨[], []⟩ =
      loopGo [] ⟨[], []⟩ :=
  ⟨rfl,
   (loopGo_window_deserialize_error (Json.obj [("change", Json.str "focus")])
      [] ⟨[], []⟩ rfl).2⟩

/-- Only the `Shutdown` arm of `Daemon::handle_event` reports
shutdown. -/
theorem handleEvent_shutdown_only (et : EventType) (p : Json) (st st' : LoopState)
    (h : handleEvent et p st = (.ok true, st')) : et = .Shutdown := by
  cases et
  case Shutdown => rfl
  all_goals
    simp only [handleEvent] at h
    repeat' split at h
    all_goals simp_all

/-- C5: a successfully decoded `Shutdown` event terminates the dispatch
loop cleanly with a success result, regardless of its payload, of the
rest of the stream and of the session state (in particular when it is
the very first event after subscription); and `Shutdown` is the only
way the loop ends without an error: a clean termination implies a
decoded `Shutdown` event was in the stream. -/
theorem loopGo_shutdown_clean :
    (∀ (j : Json) (rest : List (Except ResponseDeserializeError EventJ))
        (st : LoopState), loopGo (.ok ⟨.Shutdown, j⟩ :: rest) st = .ok st) ∧
    (∀ (evts : List (Except ResponseDeserializeError EventJ)) (st stf : LoopState),
      loopGo evts st = .ok stf →
      ∃ j, (Except.ok (⟨.Shutdown, j⟩ : EventJ)
        : Except ResponseDeserializeError EventJ) ∈ evts) := by
  constructor
  · intro j rest st
    rfl
  · intro evts
    induction evts with
    | nil =>
      intro st stf h
      simp [loopGo] at h
    | cons hd rest ih =>
      intro st stf h
      cases hd with
      | error e => simp [loopGo] at h
      | ok ev =>
        simp only [loopGo] at h
        rcases hev : handleEvent ev.event_type ev.payload st with ⟨r, st'⟩
        rw [hev] at h
        match r, h with
        | .ok true, h =>
          refine ⟨ev.payload, ?_⟩
          have : ev = ⟨.Shutdown, ev.payload⟩ := by
            have := handleEvent_shutdown_only ev.event_type ev.payload st st' hev
            cases ev
            simp_all
          rw [← this]
          exact List.mem_cons_self _ _
        | .ok false, h =>
          rcases ih st' stf h with ⟨j, hj⟩
          exact ⟨j, List.mem_cons_of_mem _ hj⟩
        | .err e, h =>
          rcases ih st' stf h with ⟨j, hj⟩
          exact ⟨j, List.mem_cons_of_mem _ hj⟩

/-- Witness for C5: a stream whose first event is `Shutdown` ends the
loop cleanly, and the clean end implies a `Shutdown` event was
present. -/
theorem loopGo_shutdown_clean_witness :
    loopGo [Except.ok ⟨EventType.Shutdown, Json.null⟩] ⟨[], []⟩ = .ok ⟨[], []⟩ ∧
    ∃ j, (Except.ok (⟨EventType.Shutdown, j⟩ : EventJ)
      : Except ResponseDeserializeError EventJ) ∈
        [Except.ok (⟨EventType.Shutdown, Json.null⟩ : EventJ)] :=
  ⟨loopGo_shutdown_clean.1 Json.null [] ⟨[], []⟩,
   loopGo_shutdown_clean.2 [Except.ok ⟨EventType.Shutdown, Json.null⟩]
     ⟨[], []⟩ ⟨[], []⟩ rfl⟩

/-- C6: dispatching a `Subscribe` reply fails with
`UnsuccessfulSubscription` exactly when the payload deserializes to
`{success: false}`; a payload deserializing to `{success: true}`
succeeds, and one that does not deserialize yields a `Deserialize`
error instead. -/
theorem handleResponse_subscribe_spec (j : Json) :
    (handleResponse .Subscribe j = .err .UnsuccessfulSubscription ↔
      SubscribeResponse.fromJson j = some ⟨false⟩) ∧
    (SubscribeResponse.fromJson j = some ⟨true⟩ →
      handleResponse .Subscribe j = .ok []) ∧
    (SubscribeResponse.fromJson j = none →
      handleResponse .Subscribe j = .err .Deserialize) := by
  rcases hj : SubscribeResponse.fromJson j with _ | ⟨b⟩
  · simp [handleResponse, hj]
  · cases b
    all_goals simp [handleResponse, hj]

/-- Witness for C6: `{"success": false}` is refused,
`{"success": true}` is accepted, a non-object payload is a
deserialization error. -/
theorem handleResponse_subscribe_spec_witness :
    handleResponse .Subscribe (Json.obj [("success", Json.bool false)]) =
      .err .UnsuccessfulSubscription ∧
    handleResponse .Subscribe (Json.obj [("success", Json.bool true)]) = .ok [] ∧
    handleResponse .Subscribe (Json.str "nope") = .err .Deserialize :=
  ⟨(handleResponse_subscribe_spec (Json.obj [("success", Json.bool false)])).1.mpr rfl,
   (handleResponse_subscribe_spec (Json.obj [("success", Json.bool true)])).2.1 rfl,
   (handleResponse_subscribe_spec (Json.str "nope")).2.2 rfl⟩

/-- C9: in `GetWorkspaces` dispatch the `visible` flag is obtained by
unwrapping the optional field; when every workspace in the
deserialized listing has it present the unwrap never faults, while a
listing entry without it makes the dispatch end in the unwrap-time
fault (panic), not in a returned error. -/
theorem getWorkspaces_visible_unwrap (j : Json) (ws : List Workspace)
    (hj : workspacesFromJson j = some ws) :
    ((∀ w ∈ ws, w.visible.isSome) →
      handleResponse .GetWorkspaces j ≠ .panic) ∧
    (∀ w ∈ ws, w.visible = none →
      handleResponse .GetWorkspaces j = .panic) := by
  constructor
  · intro h
    simp only [handleResponse, hj, handleGetWorkspaces,
      collectInfos_of_all_isSome ws h, Option.map_some']
    simp
  · intro w hw hv
    have hnone : collectInfos ws = none :=
      (collectInfos_eq_none_iff ws).mpr ⟨w, hw, hv⟩
    simp only [handleResponse, hj, handleGetWorkspaces, hnone, Option.map_none']

/-- Witness for C9: a listing whose workspace lacks `visible` ends in
the panic outcome, and one whose workspace has it does not. -/
theorem getWorkspaces_visible_unwrap_witness :
    handleResponse .GetWorkspaces
      (Json.arr [Json.obj [("id", Json.num 1), ("num", Json.num 2),
        ("name", Json.str "2"), ("output", Json.str "eDP-1"),
        ("focused", Json.bool false), ("urgent", Json.bool false)]]) = .panic ∧
    handleResponse .GetWorkspaces
      (Json.arr [Json.obj [("id", Json.num 1), ("num", Json.num 2),
        ("name", Json.str "2"), ("output", Json.str "eDP-1"),
        ("focused", Json.bool false), ("urgent", Json.bool false),
        ("visible", Json.bool true)]]) ≠ .panic :=
  ⟨(getWorkspaces_visible_unwrap
      (Json.arr [Json.obj [("id", Json.num 1), ("num", Json.num 2),
        ("name", Json.str "2"), ("output", Json.str "eDP-1"),
        ("focused", Json.bool false), ("urgent", Json.bool false)]])
      [⟨1, 2, "2", "eDP-1", false, false, none⟩]
      rfl).2 ⟨1, 2, "2", "eDP-1", false, false, none⟩ (by simp) rfl,
   (getWorkspaces_visible_unwrap
      (Json.arr [Json.obj [("id", Json.num 1), ("num", Json.num 2),
        ("name", Json.str "2"), ("output", Json.str "eDP-1"),
        ("focused", Json.bool false), ("urgent", Json.bool false),
        ("visible", Json.bool true)]])
      [⟨1, 2, "2", "eDP-1", false, false, some true⟩]
      rfl).1 (by simp)⟩

/-- C10: in `GetWorkspaces` dispatch, the output entry for a number
reported several times is derived from the workspace occurring latest
in the input sequence (later entries overwrite earlier ones in the
number-keyed map), and workspaces numbered outside 1..=8 contribute
nothing: filtering them out of the listing leaves the forwarded output
unchanged. -/
theorem handleGetWorkspaces_latest_and_range (ws : List Workspace)
    (h : ∀ w ∈ ws, w.visible.isSome) :
    (∃ entries, handleGetWorkspaces ws = some entries ∧
      ∀ n, 1 ≤ n → n ≤ 8 →
        entries[n - 1]? = some
          (((ws.reverse.find? (fun w => w.num == n)).map Workspace.asInfo).getD
            (WorkspaceInfo.new (toString n) n))) ∧
    handleGetWorkspaces ws =
      handleGetWorkspaces (ws.filter fun w => decide (1 ≤ w.num ∧ w.num ≤ 8)) := by
  obtain ⟨entries, he, _, hent⟩ := handleGetWorkspaces_entry ws h
  constructor
  · refine ⟨entries, he, fun n h1 h8 => ?_⟩
    have hn1 : n - 1 + 1 = n := by omega
    have := hent (n - 1) (by omega)
    rwa [hn1] at this
  · rw [handleGetWorkspaces, handleGetWorkspaces,
      collectInfos_of_all_isSome ws h,
      collectInfos_of_all_isSome _ (fun w hw => h w (List.mem_of_mem_filter hw)),
      Option.map_some', Option.map_some']
    congr 1
    apply List.map_congr_left
    intro i hi
    have hi8 : i < 8 := by simpa using hi
    rw [lookupLast_map_num, lookupLast_map_num, asInfo_reverse_find,
      asInfo_reverse_find, ← List.filter_reverse,
      find?_filter_of_imp _ _ _ (fun x hx => ?_)]
    simp only [decide_eq_true_eq]
    have : x.num = i + 1 := by simpa using hx
    omega

/-- Witness for C10: with workspaces numbered 3 (twice, different
focus) and 9, entry 3 comes from the later duplicate and dropping the
out-of-range workspace 9 leaves the output unchanged. -/
theorem handleGetWorkspaces_latest_and_range_witness :
    (∃ entries,
      handleGetWorkspaces
        [⟨10, 3, "a", "o", false, false, some false⟩,
         ⟨11, 3, "b", "o", true, false, some true⟩,
         ⟨12, 9, "c", "o", false, true, some true⟩] = some entries ∧
      ∀ n, 1 ≤ n → n ≤ 8 →
        entries[n - 1]? = some
          ((((([⟨10, 3, "a", "o", false, false, some false⟩,
              ⟨11, 3, "b", "o", true, false, some true⟩,
              ⟨12, 9, "c", "o", false, true, some true⟩] : List Workspace).reverse.find?
                (fun w => w.num == n)).map Workspace.asInfo)).getD
            (WorkspaceInfo.new (toString n) n))) ∧
    handleGetWorkspaces
        [⟨10, 3, "a", "o", false, false, some false⟩,
         ⟨11, 3, "b", "o", true, false, some true⟩,
         ⟨12, 9, "c", "o", false, true, some true⟩] =
      handleGetWorkspaces
        (([⟨10, 3, "a", "o", false, false, some false⟩,
           ⟨11, 3, "b", "o", true, false, some true⟩,
           ⟨12, 9, "c", "o", false, true, some true⟩] : List Workspace).filter
          fun w => decide (1 ≤ w.num ∧ w.num ≤ 8)) :=
  handleGetWorkspaces_latest_and_range
    [⟨10, 3, "a", "o", false, false, some false⟩,
     ⟨11, 3, "b", "o", true, false, some true⟩,
     ⟨12, 9, "c", "o", false, true, some true⟩] (by simp)

/-- C1: dispatching a `GetWorkspaces` reply whose payload deserializes
to a workspace listing (with the guaranteed `visible` fields present)
forwards to the widget sink, under the `ws_info` variable, exactly 8
entries numbered 1 through 8 in order; a number reported in the input
yields an entry with `active = true` and `name`, `num`, `focused`,
`urgent`, `visible` copied from that input workspace, and a number in
1..8 not reported yields the default placeholder named by the number
with all flags false. -/
theorem handleResponse_getWorkspaces_spec (j : Json) (ws : List Workspace)
    (hj : workspacesFromJson j = some ws)
    (hv : ∀ w ∈ ws, w.visible.isSome) :
    ∃ entries,
      handleResponse .GetWorkspaces j =
        .ok [⟨"ws_info", .workspaces entries⟩] ∧
      entries.length = 8 ∧
      ∀ i, i < 8 →
        ∃ e, entries[i]? = some e ∧ e.num = i + 1 ∧
          ((∃ w ∈ ws, w.num = i + 1) →
            e.active = true ∧ ∃ w ∈ ws, w.num = i + 1 ∧ e.name = w.name ∧
              e.focused = w.focused ∧ e.urgent = w.urgent ∧
              w.visible = some e.visible) ∧
          ((∀ w ∈ ws, w.num ≠ i + 1) →
            e = WorkspaceInfo.new (toString (i + 1)) (i + 1)) := by
  obtain ⟨entries, he, hlen, hent⟩ := handleGetWorkspaces_entry ws hv
  refine ⟨entries, by simp only [handleResponse, hj, he], hlen, fun i hi => ?_⟩
  have henti := hent i hi
  rcases hf : ws.reverse.find? (fun w => w.num == i + 1) with _ | w
  · rw [hf, Option.map_none', Option.getD_none] at henti
    refine ⟨_, henti, rfl, fun hex => ?_, fun _ => rfl⟩
    exfalso
    rw [List.find?_eq_none] at hf
    obtain ⟨w, hw, hwn⟩ := hex
    exact hf w (List.mem_reverse.mpr hw) (by simp [hwn])
  · rw [hf, Option.map_some', Option.getD_some] at henti
    have hwmem : w ∈ ws := List.mem_reverse.mp (List.mem_of_find?_eq_some hf)
    have hwnum : w.num = i + 1 := by simpa using List.find?_some hf
    obtain ⟨v, hvv⟩ := Option.isSome_iff_exists.mp (hv w hwmem)
    refine ⟨_, henti, by simpa [Workspace.asInfo] using hwnum,
      fun _ => ⟨rfl, w, hwmem, hwnum, rfl, rfl, rfl, ?_⟩,
      fun hno => absurd hwnum (hno w hwmem)⟩
    simp [Workspace.asInfo, hvv]

/-- Witness for C1: the spec's example listing with workspaces numbered
2 and 5 produces 8 entries forwarded under `ws_info`. -/
theorem handleResponse_getWorkspaces_spec_witness :
    ∃ entries,
      handleResponse .GetWorkspaces
        (Json.arr [Json.obj [("id", Json.num 10), ("num", Json.num 2),
            ("name", Json.str "2"), ("output", Json.str "eDP-1"),
            ("focused", Json.bool true), ("urgent", Json.bool false),
            ("visible", Json.bool true)],
          Json.obj [("id", Json.num 11), ("num", Json.num 5),
            ("name", Json.str "5"), ("output", Json.str "eDP-1"),
            ("focused", Json.bool false), ("urgent", Json.bool false),
            ("visible", Json.bool false)]]) =
        .ok [⟨"ws_info", .workspaces entries⟩] ∧
      entries.length = 8 := by
  obtain ⟨entries, h1, h2, _⟩ :=
    handleResponse_getWorkspaces_spec
      (Json.arr [Json.obj [("id", Json.num 10), ("num", Json.num 2),
          ("name", Json.str "2"), ("output", Json.str "eDP-1"),
          ("focused", Json.bool true), ("urgent", Json.bool false),
          ("visible", Json.bool true)],
        Json.obj [("id", Json.num 11), ("num", Json.num 5),
          ("name", Json.str "5"), ("output", Json.str "eDP-1"),
          ("focused", Json.bool false), ("urgent", Json.bool false),
          ("visible", Json.bool false)]])
      [⟨10, 2, "2", "eDP-1", true, false, some true⟩,
       ⟨11, 5, "5", "eDP-1", false, false, some false⟩] rfl (by simp)
  exact ⟨entries, h1, h2⟩

end SwayUpdate
